import Mathlib

/-!
Verification of the activity-processing core of a running-analytics backend.

The Python source is shallowly embedded: floats become `ℚ` (with the real
square root, which has no exact rational representative, abstracted as an
explicit function parameter where `np.std` needs it), database integers
become `ℤ`/`ℕ`, nullable columns become `Option`, and Python truthiness
(`if x:` treating `None`, `0`, `""`, `[]` as false) is modelled explicitly.
-/

/-- Sum of a list of rationals, written as a fold the way `sum(...)` folds. -/
def listSum (l : List ℚ) : ℚ := l.foldr (· + ·) 0

/-- Arithmetic mean of a list of rationals, as `np.mean` computes it on a
nonempty array.  On `[]` it returns `0 / 0 = 0`; callers guard emptiness. -/
def mean (l : List ℚ) : ℚ := listSum l / (l.length : ℚ)

/-- Round a rational to the nearest integer with ties to even, the rounding
Python's builtin `round` uses. -/
def pyRoundInt (x : ℚ) : ℤ :=
  let f : ℤ := x.floor
  let frac := x - (f : ℚ)
  if frac < 1/2 then f
  else if 1/2 < frac then f + 1
  else if f % 2 = 0 then f else f + 1

/-- Python's `round(x, d)` on our rational model of floats. -/
def pyRound (d : ℕ) (x : ℚ) : ℚ := (pyRoundInt (x * 10 ^ d) : ℚ) / 10 ^ d

/-- Python truthiness of an optional number: `None` and `0` are falsy. -/
def optQTruthy : Option ℚ → Bool
  | none => false
  | some x => decide (x ≠ 0)

/-- Python truthiness of an optional integer column. -/
def optIntTruthy : Option ℤ → Bool
  | none => false
  | some x => decide (x ≠ 0)

/-- Python truthiness of an optional string: `None` and `""` are falsy. -/
def optStrTruthy : Option String → Bool
  | none => false
  | some s => decide (s ≠ "")

/-- Python `a or b` for an optional string `a` with a string default `b`. -/
def orElseStr (a : Option String) (b : String) : String :=
  match a with
  | some s => if s = "" then b else s
  | none => b

/-- Lower-casing of a string, as `str.lower()` acts on ASCII names. -/
def strLower (s : String) : String := String.mk (s.data.map Char.toLower)

/-- Whether `p` is a prefix of `l`, on character lists. -/
def charsStartWith : List Char → List Char → Bool
  | [], _ => true
  | _ :: _, [] => false
  | c :: cs, d :: ds => c = d && charsStartWith cs ds

/-- Whether `p` occurs contiguously inside `l`, on character lists. -/
def charsHaveSub (p : List Char) : List Char → Bool
  | [] => charsStartWith p []
  | d :: ds => charsStartWith p (d :: ds) || charsHaveSub p ds

/-- Python's `pat in s` substring test. -/
def strContains (s pat : String) : Bool := charsHaveSub pat.data s.data

/-- One value of a per-activity stream channel: numeric samples, `latlng`
pairs, or the boolean `moving` channel. -/
inductive StreamData where
  | nums (l : List ℚ)
  | pairs (l : List (ℚ × ℚ))
  | bools (l : List Bool)
deriving DecidableEq

/-- The `{stream_type: data}` dict the orchestrator builds from stored
streams. -/
abbrev StreamsDict := List (String × StreamData)

/-- Dict lookup `streams.get(key, [])` for a numeric channel. -/
def getNums (sd : StreamsDict) (k : String) : List ℚ :=
  match List.lookup k sd with
  | some (.nums l) => l
  | _ => []

/-- Dict lookup for the `latlng` pair channel (default empty). -/
def getPairs (sd : StreamsDict) (k : String) : List (ℚ × ℚ) :=
  match List.lookup k sd with
  | some (.pairs l) => l
  | _ => []

/-- Dict lookup for the boolean `moving` channel (default empty). -/
def getBools (sd : StreamsDict) (k : String) : List Bool :=
  match List.lookup k sd with
  | some (.bools l) => l
  | _ => []

/-- The canonical activity row; `raw_trainer` and `raw_sport_type` are the
two keys the classifier reads out of the opaque `raw_summary` payload
(`raw.get("trainer", False)` and `raw.get("sport_type")`). -/
structure Activity where
  name : Option String
  type : Option String
  user_intent : Option String
  distance_m : ℤ
  moving_time_s : ℤ
  elapsed_time_s : ℤ
  elev_gain_m : ℚ
  avg_hr : Option ℚ
  max_hr : Option ℚ
  avg_cadence : Option ℚ
  start_date_iso : String
  raw_trainer : Bool
  raw_sport_type : Option String
deriving DecidableEq

/-- The user-profile row (the fields the processing core reads). -/
structure UserProfile where
  max_hr : Option ℤ
  max_hr_source : Option String
  goal_type : Option String
  experience_level : Option String
  weekly_days_available : Option ℤ
  current_weekly_km : Option ℤ
  injury_notes : Option String
deriving DecidableEq

/-- Seconds (sample counts) spent in each of the five heart-rate zones. -/
structure Zones where
  z1 : ℕ
  z2 : ℕ
  z3 : ℕ
  z4 : ℕ
  z5 : ℕ
deriving DecidableEq

/-- Metrics Engine `calculate_time_in_zones`: filter HR samples above 30,
then bin by fraction of `max_hr` exactly as the histogram with bin edges
`[0, 0.5m, 0.6m, 0.7m, 0.8m, 0.9m, 250]` does (the last bin is closed). -/
def calculate_time_in_zones (streams_dict : StreamsDict) (max_hr : ℚ) : Option Zones :=
  let hr_list := getNums streams_dict "heartrate"
  if hr_list = [] then none
  else
    let hr_arr := hr_list.filter (fun h => decide (30 < h))
    if hr_arr = [] then none
    else
      let t0 := 1/2 * max_hr
      let t1 := 3/5 * max_hr
      let t2 := 7/10 * max_hr
      let t3 := 4/5 * max_hr
      let t4 := 9/10 * max_hr
      some {
        z1 := (hr_arr.filter (fun h => decide (t0 ≤ h) && decide (h < t1))).length
        z2 := (hr_arr.filter (fun h => decide (t1 ≤ h) && decide (h < t2))).length
        z3 := (hr_arr.filter (fun h => decide (t2 ≤ h) && decide (h < t3))).length
        z4 := (hr_arr.filter (fun h => decide (t3 ≤ h) && decide (h < t4))).length
        z5 := (hr_arr.filter (fun h => decide (t4 ≤ h) && decide (h ≤ 250))).length }

/-- Metrics Engine `calculate_effort_score`: a TRIMP-like score from average
and maximum HR when both are truthy, else minutes of moving time. -/
def calculate_effort_score (a : Activity) : ℚ :=
  if optQTruthy a.avg_hr && optQTruthy a.max_hr then
    let hr_ratio := a.avg_hr.getD 0 / a.max_hr.getD 0
    let minutes := (a.moving_time_s : ℚ) / 60
    pyRound 1 (minutes * hr_ratio ^ 3 * 10)
  else
    pyRound 1 ((a.moving_time_s : ℚ) / 60)

/-- Maximum of a list of rationals (`np.max`/`max` on a nonempty array). -/
def listMax (l : List ℚ) : ℚ := l.foldr max (l.headD 0)

/-- Metrics Engine `calculate_hr_drift`: pace-to-HR decoupling between the
two halves of the cleaned series. -/
def calculate_hr_drift (streams_dict : StreamsDict) : Option ℚ :=
  let hr := getNums streams_dict "heartrate"
  let vel := getNums streams_dict "velocity_smooth"
  if hr = [] ∨ vel = [] ∨ hr.length ≠ vel.length ∨ hr.length < 600 then none
  else
    let cleanPairs := (hr.zip vel).filter (fun p => decide (1/2 < p.2) && decide (60 < p.1))
    if cleanPairs.length < 600 then none
    else
      let half_point := cleanPairs.length / 2
      let effs := cleanPairs.map (fun p => p.2 / p.1)
      let ef_first := mean (effs.take half_point)
      let ef_second := mean (effs.drop half_point)
      if ef_first = 0 then none
      else some (pyRound 2 ((1 - ef_second / ef_first) * 100))

/-- Metrics Engine `calculate_pace_variability`: coefficient of variation of
the filtered velocity samples.  `np.std` takes a real square root, which the
rational model abstracts as the explicit `sqrtQ` parameter (only its value
at the exact variance matters). -/
def calculate_pace_variability (sqrtQ : ℚ → ℚ) (streams_dict : StreamsDict) : Option ℚ :=
  let velocity := getNums streams_dict "velocity_smooth"
  if velocity = [] ∨ velocity.length < 60 then none
  else
    let v_arr := velocity.filter (fun v => decide (1/2 < v))
    if v_arr = [] then none
    else
      let mean_v := mean v_arr
      let std_v := sqrtQ (mean (v_arr.map (fun v => (v - mean_v) ^ 2)))
      if mean_v = 0 then none
      else some (pyRound 2 (std_v / mean_v * 100))

/-- Start and end index (inclusive) of each maximal run of `false` in the
`moving` stream, accumulated left to right. -/
def falseRunsAux : List Bool → ℕ → Option ℕ → List (ℕ × ℕ)
  | [], _, none => []
  | [], n, some s => [(s, n - 1)]
  | b :: rest, i, none =>
      if b then falseRunsAux rest (i + 1) none else falseRunsAux rest (i + 1) (some i)
  | b :: rest, i, some s =>
      if b then (s, i - 1) :: falseRunsAux rest (i + 1) none
      else falseRunsAux rest (i + 1) (some s)

/-- Maximal stopped (non-moving) index ranges of the `moving` stream. -/
def falseRuns (l : List Bool) : List (ℕ × ℕ) := falseRunsAux l 0 none

/-- One recorded stop. -/
structure StopRecord where
  start_time : ℚ
  duration_s : ℚ
  location : Option (ℚ × ℚ)
  distance_m : Option ℚ
deriving DecidableEq

/-- Result of `analyze_stops`. -/
structure StopsAnalysis where
  total_stopped_time_s : ℚ
  stopped_count : ℕ
  longest_stop_s : ℚ
  stops : List StopRecord
deriving DecidableEq

/-- Stops module `analyze_stops`: group contiguous `false` regions of the
`moving` stream, keep those with positive duration in the `time` stream. -/
def analyze_stops (streams_dict : StreamsDict) : Option StopsAnalysis :=
  let moving := getBools streams_dict "moving"
  let time_stream := getNums streams_dict "time"
  let latlng := getPairs streams_dict "latlng"
  let distance_stream := getNums streams_dict "distance"
  if moving = [] ∨ time_stream = [] then none
  else if moving.length ≠ time_stream.length then none
  else
    let stops := (falseRuns moving).filterMap (fun r =>
      let start_time := time_stream.getD r.1 0
      let end_time := time_stream.getD r.2 0
      let duration := end_time - start_time
      if 0 < duration then
        some { start_time := start_time, duration_s := duration,
               location :=
                 if latlng ≠ [] ∧ r.1 < latlng.length then some (latlng.getD r.1 (0, 0)) else none,
               distance_m :=
                 if distance_stream ≠ [] ∧ r.1 < distance_stream.length then
                   some (distance_stream.getD r.1 0)
                 else none }
      else none)
    if stops = [] then
      some { total_stopped_time_s := 0, stopped_count := 0, longest_stop_s := 0, stops := [] }
    else
      some { total_stopped_time_s := listSum (stops.map (·.duration_s)),
             stopped_count := stops.length,
             longest_stop_s := listMax (stops.map (·.duration_s)),
             stops := stops }

/-- Sliding window means: `np.convolve(l, ones(w)/w, mode=valid)`. -/
def slidingMeans (l : List ℚ) (w : ℕ) : List ℚ :=
  if l.length < w ∨ w = 0 then []
  else (List.range (l.length - w + 1)).map (fun i => mean ((l.drop i).take w))

/-- Full discrete convolution of two sample lists. -/
def convFull (a v : List ℚ) : List ℚ :=
  (List.range (a.length + v.length - 1)).map (fun k =>
    listSum ((List.range v.length).map (fun j =>
      if j ≤ k ∧ k - j < a.length then a.getD (k - j) 0 * v.getD j 0 else 0)))

/-- Centered slice of the full convolution: `np.convolve(a, v, mode=same)`
for `a` at least as long as `v`. -/
def convSame (a v : List ℚ) : List ℚ :=
  ((convFull a v).drop ((v.length - 1) / 2)).take a.length

/-- Python's `l[::10]` downsampling. -/
def everyTenth (l : List ℚ) : List ℚ :=
  (List.range ((l.length + 9) / 10)).map (fun i => l.getD (10 * i) 0)

/-- Result of `calculate_efficiency`. -/
structure EfficiencyAnalysis where
  average : ℚ
  best_sustained : ℚ
  curve : List ℚ
  unit : String
deriving DecidableEq

/-- Metrics Engine `calculate_efficiency`: average and best-sustained
speed-per-heartbeat, plus a smoothed downsampled curve. -/
def calculate_efficiency (streams_dict : StreamsDict) : Option EfficiencyAnalysis :=
  let velocity := getNums streams_dict "velocity_smooth"
  let heartrate := getNums streams_dict "heartrate"
  if velocity = [] ∨ heartrate = [] then none
  else
    let length := min velocity.length heartrate.length
    if length < 180 then none
    else
      let v_arr := velocity.take length
      let hr_arr := heartrate.take length
      let maskedPairs := (v_arr.zip hr_arr).filter (fun p => decide (4/5 < p.1) && decide (40 < p.2))
      if maskedPairs.length < 60 then none
      else
        let eff_values := maskedPairs.map (fun p => p.1 * 60 / p.2)
        let avg_efficiency := mean eff_values
        let raw_eff := (v_arr.zip hr_arr).map (fun p =>
          if 4/5 < p.1 ∧ 40 < p.2 then p.1 * 60 / p.2 else 0)
        let rolling_eff := slidingMeans raw_eff 180
        let best_sustained := if rolling_eff ≠ [] then listMax rolling_eff else avg_efficiency
        let chart_curve := convSame raw_eff (List.replicate 60 (1/60))
        let curve_data := (everyTenth chart_curve).map (pyRound 3)
        some { average := pyRound 2 avg_efficiency, best_sustained := pyRound 2 best_sustained,
               curve := curve_data, unit := "m/min/bpm" }

/-- The per-activity derived-metric fields the Metrics Engine fills in. -/
structure DerivedMetricsData where
  effort_score : ℚ
  pace_variability : Option ℚ
  hr_drift : Option ℚ
  time_in_zones : Option Zones
  stops_analysis : Option StopsAnalysis
  efficiency_analysis : Option EfficiencyAnalysis
deriving DecidableEq

/-- Metrics Engine `compute_derived_metrics_data`: effort score always, the
stream-dependent metrics only when the streams dict is truthy (nonempty);
the provided `max_hr` is used for zone bucketing only when above 150,
otherwise the default 190 is substituted. -/
def compute_derived_metrics_data (sqrtQ : ℚ → ℚ) (a : Activity) (streams_dict : StreamsDict)
    (max_hr : ℤ) : DerivedMetricsData :=
  let effort := calculate_effort_score a
  match streams_dict with
  | [] =>
    { effort_score := effort, pace_variability := none, hr_drift := none,
      time_in_zones := none, stops_analysis := none, efficiency_analysis := none }
  | s :: rest =>
    let streams := s :: rest
    let effective_max : ℤ := if max_hr ≠ 0 ∧ 150 < max_hr then max_hr else 190
    { effort_score := effort,
      pace_variability := calculate_pace_variability sqrtQ streams,
      hr_drift := calculate_hr_drift streams,
      time_in_zones := calculate_time_in_zones streams (effective_max : ℚ),
      stops_analysis := analyze_stops streams,
      efficiency_analysis := calculate_efficiency streams }

/-- Processing Orchestrator steps 4: the effective max HR handed to the
Metrics Engine (profile value when truthy and above 100, else 190). -/
def engineEffectiveMaxHr (profile : Option UserProfile) : ℤ :=
  match profile with
  | some p =>
    match p.max_hr with
    | some m => if m ≠ 0 ∧ 100 < m then m else 190
    | none => 190
  | none => 190

/-- Average moving time of the history entries with positive moving time
(the classifier's long-run baseline; zero when there is no usable history). -/
def avgRecentDuration (history : List Activity) : ℚ :=
  let recent_durations := (history.map (fun h => h.moving_time_s)).filter (fun d => decide (0 < d))
  if recent_durations ≠ [] then
    listSum (recent_durations.map (fun d => (d : ℚ))) / (recent_durations.length : ℚ)
  else 0

/-- Elevation gain per kilometre (evaluated only under a positive-distance
guard in the classifier). -/
def gainPerKm (a : Activity) : ℚ := a.elev_gain_m / ((a.distance_m : ℚ) / 1000)

/-- The sport fallbacks at the end of `classify_activity` (step 4 of the
rule order), with `Easy Run` the default for runs and unknown types. -/
def sportFallbackClass (sport_type : String) : String :=
  if sport_type = "Ride" then "Easy Ride"
  else if sport_type = "Walk" then "Leisure Walk"
  else if sport_type = "Swim" then "Endurance"
  else if sport_type = "Workout" ∨ sport_type = "WeightTraining" then "Strength"
  else "Easy Run"

/-- Classifier `classify_activity`: user intent first, then trainer and
zero-distance-ride heuristics, missing-name early return, keyword match,
long-run and elevation heuristics, and finally the sport fallbacks. -/
def classify_activity (a : Activity) (history : List Activity) : String :=
  if optStrTruthy a.user_intent then a.user_intent.getD ""
  else
    let is_trainer := a.raw_trainer
    let sport_type := orElseStr a.raw_sport_type (orElseStr a.type "Run")
    if is_trainer ∧ sport_type = "Ride" then "Indoor Ride"
    else if is_trainer ∧ sport_type = "Run" then "Treadmill"
    else if sport_type = "Ride" ∧ a.distance_m = 0 ∧ 60 < a.moving_time_s then "Indoor Ride"
    else if ¬ optStrTruthy a.name then "Easy Run"
    else
      let name_lower := strLower (a.name.getD "")
      if strContains name_lower "race" then "Race"
      else if strContains name_lower "workout" ∨ strContains name_lower "interval" then "Intervals"
      else if strContains name_lower "hill" then "Hills"
      else if strContains name_lower "recovery" then "Recovery"
      else
        let threshold_s : ℚ := max 4500 (avgRecentDuration history * (13/10))
        if threshold_s < (a.moving_time_s : ℚ) then "Long Run"
        else
          let fallback := sportFallbackClass sport_type
          if 0 < a.distance_m then
            if 20 < gainPerKm a then "Hills"
            else if 15 < gainPerKm a ∧ (optQTruthy a.avg_hr ∧ 150 < a.avg_hr.getD 0) then "Hills"
            else fallback
          else fallback

/-- The per-activity projection the Trends Aggregator filters on (the two
fields the type filter reads). -/
structure ActivityFact where
  activity_type : String
  user_intent : Option String
deriving DecidableEq

/-- Trends `ActivityFact.effective_type`: `user_intent` when truthy, else
the provider-reported type. -/
def ActivityFact.effective_type (f : ActivityFact) : String :=
  if optStrTruthy f.user_intent then f.user_intent.getD "" else f.activity_type

/-- Trends `_query_activity_facts` type filter: with a truthy `types` list,
keep the facts whose lowercased provider type is in the lowercased set. -/
def filterFactsByTypes (types : List String) (facts : List ActivityFact) : List ActivityFact :=
  match types with
  | [] => facts
  | _ :: _ =>
    let type_set := types.map strLower
    facts.filter (fun f => type_set.contains (strLower f.activity_type))

/-- One detected work segment of an interval session. -/
structure WorkSegment where
  segment_number : ℕ
  start_time_s : ℚ
  duration_s : ℚ
  distance_m : Option ℚ
  avg_speed_mps : Option ℚ
  avg_hr : Option ℚ
  peak_hr : Option ℚ
deriving DecidableEq

/-- One detected rest segment between work segments. -/
structure RestSegment where
  segment_number : ℕ
  duration_s : ℚ
  avg_hr : Option ℚ
  hr_recovery_bpm : Option ℚ
deriving DecidableEq

/-- The summary block of a detected interval structure (dict keys become
optional fields, `.get` defaults are applied at use sites). -/
structure IntervalSummary where
  total_work_time_s : Option ℚ
  total_rest_time_s : Option ℚ
  work_to_rest_ratio : Option ℚ
  rep_count : Option ℕ
  avg_work_duration_s : Option ℚ
  work_duration_cv : Option ℚ
  avg_work_speed_mps : Option ℚ
  work_speed_cv : Option ℚ
  avg_rest_duration_s : Option ℚ
  avg_hr_recovery_bpm : Option ℚ
  consistency_score : Option String
deriving DecidableEq

/-- Output of the interval detector. -/
structure IntervalStructure where
  warmup_duration_s : Option ℚ
  cooldown_duration_s : Option ℚ
  work_segments : List WorkSegment
  rest_segments : List RestSegment
  summary : IntervalSummary
deriving DecidableEq

/-- A structured planned workout from user input. -/
structure PlannedWorkout where
  reps_planned : Option ℕ
  rep_distance_m : Option ℚ
  rest_s : Option ℚ
deriving DecidableEq

/-- The `detected_workout` summary the matcher builds. -/
structure DetectedWorkout where
  reps_detected : ℕ
  rep_distance_mean_m : Option ℚ
  rep_distance_cv : Option ℚ
  rep_duration_mean_s : ℚ
  rep_duration_cv : Option ℚ
  total_work_time_s : Option ℚ
  total_rest_time_s : Option ℚ
  work_to_rest_ratio : Option ℚ
  consistency_score : Option String
deriving DecidableEq

/-- Result of `match_planned_to_detected`. -/
structure MatchResult where
  match_score : Option ℚ
  detection_confidence : String
  confidence_reasons : List String
  detected_workout : Option DetectedWorkout
deriving DecidableEq

/-- Workout-matching `_cv_percent`: sample (ddof 1) coefficient of variation
as a percentage, with the square root abstracted as `sqrtQ`. -/
def cv_percent (sqrtQ : ℚ → ℚ) (values : List ℚ) : Option ℚ :=
  if values = [] ∨ values.length < 2 then none
  else
    let m := mean values
    if m = 0 then none
    else
      let sample_var := listSum (values.map (fun v => (v - m) ^ 2)) / ((values.length : ℚ) - 1)
      some (pyRound 1 (sqrtQ sample_var / m * 100))

/-- The median as `np.median` computes it (mean of the two middle order
statistics when the length is even). -/
def median (l : List ℚ) : ℚ :=
  let sorted := l.mergeSort (fun a b => decide (a ≤ b))
  let n := l.length
  if n % 2 = 1 then sorted.getD (n / 2) 0
  else (sorted.getD (n / 2 - 1) 0 + sorted.getD (n / 2) 0) / 2

/-- The truthy (present and nonzero) per-rep distances of the work segments
(`[w.get("distance_m") for w in work_segments if w.get("distance_m")]`). -/
def workSegmentDistances (work_segments : List WorkSegment) : List ℚ :=
  work_segments.filterMap (fun w =>
    match w.distance_m with
    | some d => if d ≠ 0 then some d else none
    | none => none)

/-- Workout Matcher `match_planned_to_detected`: build the detected summary,
accumulate confidence reasons, and with a planned workout compute the mean
of the per-criterion ratios (the expected-work-time ratio joins the mean
only when it is below 0.4). -/
def match_planned_to_detected (sqrtQ : ℚ → ℚ) (interval_structure : Option IntervalStructure)
    (planned_workout : Option PlannedWorkout) : MatchResult :=
  match interval_structure with
  | none =>
    { match_score := none, detection_confidence := "low",
      confidence_reasons := ["no_intervals_detected"], detected_workout := none }
  | some istr =>
    let summary := istr.summary
    let work_segments := istr.work_segments
    match work_segments with
    | [] =>
      { match_score := none, detection_confidence := "low",
        confidence_reasons := ["no_work_segments"], detected_workout := none }
    | _ :: _ =>
      let distances := workSegmentDistances work_segments
      let durations := work_segments.map (·.duration_s)
      let detected : DetectedWorkout :=
        { reps_detected := summary.rep_count.getD work_segments.length,
          rep_distance_mean_m := if distances ≠ [] then some (pyRound 1 (mean distances)) else none,
          rep_distance_cv := if distances ≠ [] then cv_percent sqrtQ distances else none,
          rep_duration_mean_s := pyRound 1 (mean durations),
          rep_duration_cv := summary.work_duration_cv,
          total_work_time_s := summary.total_work_time_s,
          total_rest_time_s := summary.total_rest_time_s,
          work_to_rest_ratio := summary.work_to_rest_ratio,
          consistency_score := summary.consistency_score }
      let outlierReasons : List String :=
        if distances ≠ [] ∧ 3 ≤ distances.length then
          let med := median distances
          if 0 < med then
            let outlier_count := (distances.filter (fun d => decide (1/2 < |d - med| / med))).length
            if 0 < outlier_count then
              ["distance_outliers_" ++ toString outlier_count ++ "_of_" ++ toString distances.length]
            else []
          else []
        else []
      let distCvReasons : List String :=
        match detected.rep_distance_cv with
        | some cv => if 30 < cv then ["high_rep_distance_variability"] else []
        | none => []
      let durCvReasons : List String :=
        match detected.rep_duration_cv with
        | some cv => if 30 < cv then ["high_rep_duration_variability"] else []
        | none => []
      let baseReasons := outlierReasons ++ distCvReasons ++ durCvReasons
      match planned_workout with
      | none =>
        let reasons := baseReasons ++ ["no_planned_workout"]
        let consistency := summary.consistency_score.getD "unknown"
        let detection_confidence :=
          if consistency = "high" ∧ ¬ reasons.any (fun r => strContains r "outlier") then "medium"
          else "low"
        { match_score := none, detection_confidence := detection_confidence,
          confidence_reasons := reasons, detected_workout := some detected }
      | some pw =>
        let repPart : List ℚ × List String :=
          match pw.reps_planned with
          | some rp =>
            if rp ≠ 0 ∧ detected.reps_detected ≠ 0 then
              ([((min rp detected.reps_detected : ℕ) : ℚ) / ((max rp detected.reps_detected : ℕ) : ℚ)],
               if rp ≠ detected.reps_detected then
                 ["rep_count_mismatch_planned_" ++ toString rp ++ "_detected_" ++
                   toString detected.reps_detected]
               else [])
            else ([], [])
          | none => ([], [])
        let distPart : List ℚ × List String :=
          match pw.rep_distance_m, detected.rep_distance_mean_m with
          | some dp, some dd =>
            if dp ≠ 0 ∧ dd ≠ 0 then
              let dist_ratio := min dp dd / max dp dd
              ([dist_ratio], if dist_ratio < 7/10 then ["rep_distance_mismatch"] else [])
            else ([], [])
          | _, _ => ([], [])
        let restPart : List ℚ × List String :=
          match pw.rest_s, summary.avg_rest_duration_s with
          | some rs, some ar =>
            if rs ≠ 0 ∧ ar ≠ 0 then
              let rest_ratio := min rs ar / max rs ar
              ([rest_ratio], if rest_ratio < 1/2 then ["rest_duration_mismatch"] else [])
            else ([], [])
          | _, _ => ([], [])
        let workPart : List ℚ × List String :=
          match pw.reps_planned, pw.rep_distance_m, detected.total_work_time_s with
          | some rp, some dp, some tw =>
            if rp ≠ 0 ∧ dp ≠ 0 ∧ tw ≠ 0 then
              let expected_work_s := (rp : ℚ) * (dp / 4)
              let work_ratio := min expected_work_s tw / max expected_work_s tw
              if work_ratio < 2/5 then ([work_ratio], ["work_time_implausible_for_plan"])
              else ([], [])
            else ([], [])
          | _, _, _ => ([], [])
        let scores := repPart.1 ++ distPart.1 ++ restPart.1 ++ workPart.1
        let reasons := baseReasons ++ repPart.2 ++ distPart.2 ++ restPart.2 ++ workPart.2
        let match_score := if scores ≠ [] then pyRound 2 (mean scores) else 0
        let critical_reasons := reasons.filter (fun r => r ≠ "no_planned_workout")
        let detection_confidence :=
          if 4/5 ≤ match_score ∧ critical_reasons.length ≤ 1 then "high"
          else if 1/2 ≤ match_score then "medium"
          else "low"
        { match_score := some match_score, detection_confidence := detection_confidence,
          confidence_reasons := reasons, detected_workout := some detected }

/-- Interval-specific coaching KPIs. -/
structure IntervalKpis where
  rep_pace_consistency_cv : Option ℚ
  first_vs_last_fade : Option ℚ
  recovery_quality_per_60s : Option ℚ
  work_rest_ratio : Option ℚ
  total_z4_plus_s : Option ℕ
deriving DecidableEq

/-- Workout Matcher `build_interval_kpis`: pace consistency, first-to-last
fade, recovery quality, work-to-rest ratio, and seconds in Z4+Z5 gated on
the `zones_calibrated` flag (the `max_hr` argument is accepted but unused,
as in the source). -/
def build_interval_kpis (interval_structure : IntervalStructure) (max_hr : Option ℤ)
    (zones_calibrated : Bool) (time_in_zones : Option Zones) : IntervalKpis :=
  let work_segments := interval_structure.work_segments
  let rest_segments := interval_structure.rest_segments
  let summary := interval_structure.summary
  let fade : Option ℚ :=
    if 2 ≤ work_segments.length then
      match work_segments.head?, work_segments.getLast? with
      | some w0, some wn =>
        match w0.avg_speed_mps, wn.avg_speed_mps with
        | some fs, some ls => if fs ≠ 0 ∧ ls ≠ 0 ∧ 0 < fs then some (pyRound 2 (ls / fs)) else none
        | _, _ => none
      | _, _ => none
    else none
  let hr_drops_per_60 := rest_segments.filterMap (fun rest =>
    match rest.hr_recovery_bpm with
    | some recovery_bpm =>
      if rest.duration_s ≠ 0 ∧ 0 < rest.duration_s then
        some (recovery_bpm / rest.duration_s * 60)
      else none
    | none => none)
  let recovery :=
    if hr_drops_per_60 ≠ [] then some (pyRound 1 (mean hr_drops_per_60)) else none
  { rep_pace_consistency_cv := summary.work_speed_cv,
    first_vs_last_fade := fade,
    recovery_quality_per_60s := recovery,
    work_rest_ratio := summary.work_to_rest_ratio,
    total_z4_plus_s :=
      if zones_calibrated then
        match time_in_zones with
        | some tz => some (tz.z4 + tz.z5)
        | none => none
      else none }

/-- Processing Orchestrator step 6.7: `zones_calibrated` is the truthiness
of `profile and profile.max_hr and profile.max_hr > 100` — the profile's
`max_hr_source` is not consulted here. -/
def engineZonesCalibrated (profile : Option UserProfile) : Bool :=
  match profile with
  | some p =>
    match p.max_hr with
    | some m => decide (m ≠ 0) && decide (100 < m)
    | none => false
  | none => false

/-- The refinement loop of `_bimodal_threshold` with explicit fuel: split at
the threshold, stop on empty side (failure) or a change below 0.01, else
recurse on the midpoint of the two cluster means. -/
def refineThreshold (speeds : List ℚ) : ℕ → ℚ → Option ℚ
  | 0, t => some t
  | n + 1, t =>
    let low := speeds.filter (fun s => decide (s ≤ t))
    let high := speeds.filter (fun s => decide (t < s))
    if low = [] ∨ high = [] then none
    else
      let new_threshold := (mean low + mean high) / 2
      if |new_threshold - t| < 1/100 then some t
      else refineThreshold speeds n new_threshold

/-- Number of loop iterations `refineThreshold` actually executes. -/
def refineSteps (speeds : List ℚ) : ℕ → ℚ → ℕ
  | 0, _ => 0
  | n + 1, t =>
    let low := speeds.filter (fun s => decide (s ≤ t))
    let high := speeds.filter (fun s => decide (t < s))
    if low = [] ∨ high = [] then 1
    else
      let new_threshold := (mean low + mean high) / 2
      if |new_threshold - t| < 1/100 then 1
      else 1 + refineSteps speeds n new_threshold

/-- Interval Detector `_bimodal_threshold`: refine from the global mean for
up to 20 iterations, then demand nonempty clusters separated by at least a
30 percent difference in means. -/
def bimodal_threshold (speeds : List ℚ) : Option ℚ :=
  if speeds.length < 10 then none
  else
    match refineThreshold speeds 20 (mean speeds) with
    | none => none
    | some threshold =>
      let low := speeds.filter (fun s => decide (s ≤ threshold))
      let high := speeds.filter (fun s => decide (threshold < s))
      if low = [] ∨ high = [] then none
      else if mean high < mean low * (13/10) then none
      else some threshold

/-- The linked-account row the Token Store owns. -/
structure StravaAccount where
  access_token : String
  refresh_token : String
  expires_at : ℚ
deriving DecidableEq

/-- The body of a successful refresh-grant response. -/
structure TokenRefreshData where
  access_token : String
  refresh_token : String
  expires_at : ℚ
deriving DecidableEq

/-- Provider client `ensure_valid_token`, with the HTTP refresh call
modelled as its result: fresh tokens short-circuit; otherwise a successful
refresh overwrites the three token fields and an error propagates before
any mutation of the account row. -/
def ensure_valid_token {ε : Type} (now : ℚ) (strava_account : StravaAccount)
    (refresh_response : Except ε TokenRefreshData) : Except ε String × StravaAccount :=
  if now + 60 < strava_account.expires_at then
    (.ok strava_account.access_token, strava_account)
  else
    match refresh_response with
    | .error e => (.error e, strava_account)
    | .ok d =>
      let updated : StravaAccount :=
        { access_token := d.access_token, refresh_token := d.refresh_token,
          expires_at := d.expires_at }
      (.ok updated.access_token, updated)

/-- The check-in row (only its presence matters to the confidence step). -/
structure CheckIn where
  rpe : Option ℤ
  sleep_quality : Option ℤ
  pain_score : Option ℤ
deriving DecidableEq

/-- The critical confidence-reason codes of `compute_confidence`. -/
def criticalConfidenceCodes : List String :=
  ["no_heart_rate_data", "no_stream_data", "interval_structure_mismatch",
   "work_time_implausibly_high", "high_rep_distance_variability"]

/-- Size of the intersection of the critical set with the reasons list
(`critical & set(reasons)` in the source). -/
def criticalHits (reasons : List String) : ℕ :=
  (criticalConfidenceCodes.filter (fun c => reasons.contains c)).length

/-- The level rule at the end of `compute_confidence`, as a function of the
accumulated reasons. -/
def confidenceLevel (reasons : List String) : String :=
  if 2 ≤ criticalHits reasons then "low"
  else if 1 ≤ criticalHits reasons ∨ 3 ≤ reasons.length then "medium"
  else if reasons.length = 0 then "high"
  else if reasons ≠ [] then "medium" else "high"

/-- The reason-accumulation phase of `compute_confidence`, in source
order: data presence, deduplicated match reasons, match-score check, and
interval sanity checks. -/
def confidenceReasons (a : Activity) (streams_dict : StreamsDict) (check_in : Option CheckIn)
    (interval_structure : Option IntervalStructure) (workout_match : Option MatchResult) :
    List String :=
  let r1 := if ¬ optQTruthy a.avg_hr then ["no_heart_rate_data"] else []
  let r2 :=
    match streams_dict with
    | [] => ["no_stream_data"]
    | _ :: _ => if getPairs streams_dict "latlng" = [] then ["no_gps_data"] else []
  let r3 := match check_in with | none => ["no_user_checkin"] | some _ => []
  let base := r1 ++ r2 ++ r3
  let withMatch :=
    match workout_match with
    | some wm =>
      let merged := wm.confidence_reasons.foldl
        (fun acc r => if acc.contains r then acc else acc ++ [r]) base
      merged ++ (match wm.match_score with
        | some s => if s < 7/10 then ["interval_structure_mismatch"] else []
        | none => [])
    | none => base
  match interval_structure with
  | some istr =>
    let total_work := istr.summary.total_work_time_s.getD 0
    let w1 := if 2700 < total_work then ["work_time_implausibly_high"] else []
    let w2 := if ¬ optQTruthy istr.warmup_duration_s then ["no_warmup_detected"] else []
    withMatch ++ w1 ++ w2
  | none => withMatch

/-- Processing Orchestrator `compute_confidence`: (level, reasons). -/
def compute_confidence (a : Activity) (streams_dict : StreamsDict) (check_in : Option CheckIn)
    (interval_structure : Option IntervalStructure) (workout_match : Option MatchResult) :
    String × List String :=
  let reasons := confidenceReasons a streams_dict check_in interval_structure workout_match
  (confidenceLevel reasons, reasons)

/-- A JSON document, the value type of the Context Pack. -/
inductive Json where
  | null
  | bool (b : Bool)
  | num (q : ℚ)
  | str (s : String)
  | arr (l : List Json)
  | obj (l : List (String × Json))

/-- Key order on serialized object entries. -/
def keyLe {α : Type} (a b : String × α) : Prop := a.1 ≤ b.1

instance {α : Type} : DecidableRel (keyLe (α := α)) :=
  fun a b => inferInstanceAs (Decidable (a.1 ≤ b.1))

instance {α : Type} : IsTotal (String × α) keyLe := ⟨fun a b => le_total a.1 b.1⟩

instance {α : Type} : IsTrans (String × α) keyLe := ⟨fun _ _ _ h1 h2 => le_trans h1 h2⟩

/-- Sorting an association list by key, the effect of `sort_keys=True`. -/
def sortPairsByKey {α : Type} (l : List (String × α)) : List (String × α) :=
  List.insertionSort keyLe l

/-- Comma-separated join of rendered items. -/
def commaJoin : List String → String
  | [] => ""
  | [x] => x
  | x :: y :: xs => x ++ ", " ++ commaJoin (y :: xs)

/-- Render one serialized key-value entry. -/
def renderKv (kv : String × String) : String := "\"" ++ kv.1 ++ "\": " ++ kv.2

mutual

/-- Canonical serialization with sorted object keys, the shape
`json.dumps(pack, sort_keys=True, default=str)` produces (string escaping
is immaterial to key ordering and omitted). -/
def serializeJson : Json → String
  | .null => "null"
  | .bool b => if b then "true" else "false"
  | .num q => toString q
  | .str s => "\"" ++ s ++ "\""
  | .arr l => "[" ++ commaJoin (serializeElems l) ++ "]"
  | .obj l => "\x7b" ++ commaJoin ((sortPairsByKey (serializePairs l)).map renderKv) ++ "\x7d"

/-- Serialize the elements of an array. -/
def serializeElems : List Json → List String
  | [] => []
  | x :: xs => serializeJson x :: serializeElems xs

/-- Serialize the values of an object, keeping the keys. -/
def serializePairs : List (String × Json) → List (String × String)
  | [] => []
  | (k, v) :: xs => (k, serializeJson v) :: serializePairs xs

end

/-- Context builder `hash_context_pack`: the digest of the canonical
serialization, with SHA-256 itself abstracted as a function parameter (any
fixed digest function; the claims only concern the serialized preimage). -/
def hash_context_pack (sha256 : String → String) (pack : Json) : String :=
  sha256 (serializeJson pack)

/-- Optional string as a JSON value. -/
def optStrJson : Option String → Json
  | none => .null
  | some s => .str s

/-- Optional rational as a JSON value. -/
def optQJson : Option ℚ → Json
  | none => .null
  | some q => .num q

/-- Optional integer as a JSON value. -/
def optIntJson : Option ℤ → Json
  | none => .null
  | some n => .num (n : ℚ)

/-- Activity classes the training context counts as hard. -/
def HARD_CLASSES : List String := ["Intervals", "Tempo", "Race", "Hills"]

/-- Activity classes the training context counts as moderate. -/
def MODERATE_CLASSES : List String := ["Long Run"]

/-- A prior activity as `_build_training_context` sees it: its stored
class (`none` when no metrics row exists, which the loop reads as easy) and
how many days before the current activity it started. -/
structure RecentActivityRow where
  metrics_class : Option String
  days_before : ℤ
deriving DecidableEq

/-- Accumulated training context. -/
structure TrainingContext where
  easy : ℕ
  moderate : ℕ
  hard : ℕ
  days_since_last_hard : Option ℤ
deriving DecidableEq

/-- Context builder `_build_training_context`: scan the prior week's
activities (most recent first), bucketing by class and recording the first
hard session's recency. -/
def build_training_context (recent : List RecentActivityRow) : TrainingContext :=
  recent.foldl (fun ctx a =>
    let ac := a.metrics_class.getD "Easy Run"
    if HARD_CLASSES.contains ac then
      { ctx with
        hard := ctx.hard + 1,
        days_since_last_hard :=
          match ctx.days_since_last_hard with
          | none => some a.days_before
          | some d => some d }
    else if MODERATE_CLASSES.contains ac then { ctx with moderate := ctx.moderate + 1 }
    else { ctx with easy := ctx.easy + 1 })
    { easy := 0, moderate := 0, hard := 0, days_since_last_hard := none }

/-- The training-context block of the pack. -/
def trainingContextJson (t : TrainingContext) : Json :=
  .obj [("intensity_distribution_7d", .obj [
           ("easy", .num (t.easy : ℚ)),
           ("moderate", .num (t.moderate : ℚ)),
           ("hard", .num (t.hard : ℚ))]),
        ("days_since_last_hard", optIntJson t.days_since_last_hard),
        ("hard_sessions_this_week", .num (t.hard : ℚ))]

/-- The derived-metric row as the context builder reads it (opaque JSON
columns stay JSON values). -/
structure DerivedMetricRow where
  activity_class : Option String
  effort_score : ℚ
  hr_drift : Option ℚ
  pace_variability : Option ℚ
  flags : List String
  confidence : Option String
  confidence_reasons : List String
  time_in_zones : Json
  efficiency_analysis : Json
  stops_analysis : Json
  interval_structure : Json
  workout_match : Json
  interval_kpis : Json
  risk_level : Option String
  risk_score : Option ℤ
  risk_reasons : List String

/-- The check-in row as the context builder reads it. -/
structure CheckInRow where
  rpe : Option ℤ
  pain_score : Option ℤ
  pain_location : Option String
  sleep_quality : Option ℤ
  notes : Option String
deriving DecidableEq

/-- One queried activity fact feeding the rolling summaries. -/
structure FactRow where
  distance_m : ℤ
  moving_time_s : ℤ
  effort_score : Option ℚ
deriving DecidableEq

/-- Context builder `_summarize` over one window of facts. -/
def summarizeFacts (facts : List FactRow) : Json :=
  .obj [("activity_count", .num (facts.length : ℚ)),
        ("total_distance_m", .num (listSum (facts.map (fun f => (f.distance_m : ℚ))))),
        ("total_moving_time_s", .num (listSum (facts.map (fun f => (f.moving_time_s : ℚ))))),
        ("total_effort", .num (pyRound 1 (listSum (facts.map (fun f => f.effort_score.getD 0)))))]

/-- Everything `build_context_pack` reads from the database, gathered as one
value: the activity, its metric row, check-in, profile, the three rolling
windows of facts, and the prior week's activities. -/
structure ContextInputs where
  activity : Activity
  metrics : Option DerivedMetricRow
  check_in : Option CheckInRow
  profile : Option UserProfile
  facts_7d : List FactRow
  facts_28d : List FactRow
  facts_prev_28d : List FactRow
  recent_7d : List RecentActivityRow


/-- The `zones_calibrated` flag of the context builder: explicit profile
`max_hr` above 100 together with a truthy `max_hr_source`. -/
def contextHasExplicitMaxHr (profile : Option UserProfile) : Bool :=
  match profile with
  | some p =>
    (match p.max_hr with
     | some m => decide (m ≠ 0) && decide (100 < m)
     | none => false) && optStrTruthy p.max_hr_source
  | none => false

/-- The `zones_basis` tag of the context builder. -/
def contextZonesBasis (profile : Option UserProfile) : String :=
  if contextHasExplicitMaxHr profile then "user_" ++ ((profile.bind (·.max_hr_source)).getD "")
  else "uncalibrated"

/-- The `activity` block of the pack. -/
def activityBlockJson (a : Activity) : Json :=
  .obj [
    ("date", .str a.start_date_iso),
    ("name", optStrJson a.name),
    ("type",
      if optStrTruthy a.user_intent then .str (a.user_intent.getD "")
      else optStrJson a.type),
    ("distance_m", .num (a.distance_m : ℚ)),
    ("moving_time_s", .num (a.moving_time_s : ℚ)),
    ("avg_hr", optQJson a.avg_hr),
    ("max_hr", optQJson a.max_hr),
    ("avg_cadence", optQJson a.avg_cadence),
    ("elev_gain_m", .num a.elev_gain_m)]

/-- The `metrics` block of the pack. -/
def metricsBlockJson (metrics : Option DerivedMetricRow) (zones_calibrated : Bool)
    (zones_basis : String) : Json :=
  match metrics with
  | some m =>
    .obj [
      ("activity_class", optStrJson m.activity_class),
      ("effort_score", .num (pyRound 1 m.effort_score)),
      ("hr_drift",
        if optQTruthy m.hr_drift then .num (pyRound 1 (m.hr_drift.getD 0)) else .null),
      ("pace_variability",
        if optQTruthy m.pace_variability then .num (pyRound 1 (m.pace_variability.getD 0))
        else .null),
      ("flags", .arr (m.flags.map Json.str)),
      ("confidence", optStrJson m.confidence),
      ("confidence_reasons", .arr (m.confidence_reasons.map Json.str)),
      ("time_in_zones", m.time_in_zones),
      ("zones_calibrated", .bool zones_calibrated),
      ("zones_basis", .str zones_basis),
      ("efficiency_analysis", m.efficiency_analysis),
      ("stops_analysis", m.stops_analysis),
      ("interval_structure", m.interval_structure),
      ("workout_match", m.workout_match),
      ("interval_kpis", m.interval_kpis),
      ("risk_level", optStrJson m.risk_level),
      ("risk_score", optIntJson m.risk_score),
      ("risk_reasons", .arr (m.risk_reasons.map Json.str))]
  | none =>
    .obj [
      ("activity_class", .null),
      ("effort_score", .null),
      ("hr_drift", .null),
      ("pace_variability", .null),
      ("flags", .arr []),
      ("confidence", .str "low"),
      ("confidence_reasons", .arr []),
      ("time_in_zones", .null),
      ("zones_calibrated", .bool zones_calibrated),
      ("zones_basis", .str zones_basis),
      ("efficiency_analysis", .null),
      ("stops_analysis", .null),
      ("interval_structure", .null),
      ("workout_match", .null),
      ("interval_kpis", .null),
      ("risk_level", .null),
      ("risk_score", .null),
      ("risk_reasons", .arr [])]

/-- The `check_in` block of the pack. -/
def checkInBlockJson (check_in : Option CheckInRow) : Json :=
  match check_in with
  | some c =>
    .obj [
      ("rpe", optIntJson c.rpe),
      ("pain_score", optIntJson c.pain_score),
      ("pain_location", optStrJson c.pain_location),
      ("sleep_quality", optIntJson c.sleep_quality),
      ("notes", optStrJson c.notes)]
  | none =>
    .obj [
      ("rpe", .null),
      ("pain_score", .null),
      ("pain_location", .null),
      ("sleep_quality", .null),
      ("notes", .null)]

/-- The `profile` block of the pack. -/
def profileBlockJson (profile : Option UserProfile) : Json :=
  match profile with
  | some p =>
    .obj [
      ("goal_type", optStrJson p.goal_type),
      ("experience_level", optStrJson p.experience_level),
      ("weekly_days_available", optIntJson p.weekly_days_available),
      ("injury_notes", optStrJson p.injury_notes),
      ("max_hr", optIntJson p.max_hr),
      ("max_hr_source", optStrJson p.max_hr_source),
      ("current_weekly_km", optIntJson p.current_weekly_km)]
  | none =>
    .obj [
      ("goal_type", .null),
      ("experience_level", .null),
      ("weekly_days_available", .null),
      ("injury_notes", .null),
      ("max_hr", .null),
      ("max_hr_source", .null),
      ("current_weekly_km", .null)]

/-- Context builder `build_context_pack`: shape the gathered rows into the
pack document, key for key and block for block as the source assembles
its `pack` dict. -/
def build_context_pack (i : ContextInputs) : Json :=
  Json.obj [
    ("activity", activityBlockJson i.activity),
    ("metrics", metricsBlockJson i.metrics (contextHasExplicitMaxHr i.profile)
       (contextZonesBasis i.profile)),
    ("check_in", checkInBlockJson i.check_in),
    ("profile", profileBlockJson i.profile),
    ("training_context", trainingContextJson (build_training_context i.recent_7d)),
    ("recent_training_summary", .obj [
       ("last_7d", summarizeFacts i.facts_7d),
       ("last_28d", summarizeFacts i.facts_28d),
       ("previous_28d", summarizeFacts i.facts_prev_28d)]),
    ("safety_rules", .obj [
       ("never_diagnose", .bool true),
       ("pain_severe_threshold", .num 7),
       ("no_invented_facts", .bool true)])]

/-- Fixture: an activity with a recorded but zero average HR. -/
def exC6Act : Activity :=
  { name := some "Evening Run", type := some "Run", user_intent := none, distance_m := 5000,
    moving_time_s := 600, elapsed_time_s := 620, elev_gain_m := 0,
    avg_hr := some 0, max_hr := some 190, avg_cadence := none, start_date_iso := "2026-01-01",
    raw_trainer := false, raw_sport_type := none }

/-- Fixture: the spec's easy-run scenario (avg HR 150, max HR 200, 1500 s). -/
def exC6WitAct : Activity :=
  { name := some "Easy Run", type := some "Run", user_intent := none, distance_m := 5000,
    moving_time_s := 1500, elapsed_time_s := 1500, elev_gain_m := 0,
    avg_hr := some 150, max_hr := some 200, avg_cadence := none, start_date_iso := "2026-01-02",
    raw_trainer := false, raw_sport_type := none }

/-- Fixture: a nameless outdoor walk. -/
def exC2Act : Activity :=
  { name := none, type := some "Walk", user_intent := none, distance_m := 1000,
    moving_time_s := 600, elapsed_time_s := 600, elev_gain_m := 0,
    avg_hr := none, max_hr := none, avg_cadence := none, start_date_iso := "2026-01-03",
    raw_trainer := false, raw_sport_type := some "Walk" }

/-- Fixture: a named walk whose name matches no classifier keyword. -/
def exC2WitAct : Activity :=
  { name := some "Morning Walk", type := some "Walk", user_intent := none, distance_m := 1000,
    moving_time_s := 600, elapsed_time_s := 600, elev_gain_m := 0,
    avg_hr := none, max_hr := none, avg_cadence := none, start_date_iso := "2026-01-04",
    raw_trainer := false, raw_sport_type := some "Walk" }

/-- Fixture: a fact whose provider type and user intent disagree. -/
def exC3Fact : ActivityFact := { activity_type := "Run", user_intent := some "Ride" }

/-- Fixture: a fact with no user intent. -/
def exC3Fact2 : ActivityFact := { activity_type := "Ride", user_intent := none }

/-- Fixture: a profile whose max HR lies in the disputed band (100, 150]. -/
def exC1Profile : UserProfile :=
  { max_hr := some 120, max_hr_source := some "user_entered", goal_type := some "5k",
    experience_level := some "new", weekly_days_available := some 3, current_weekly_km := none,
    injury_notes := none }

/-- Fixture: a single-sample heart-rate stream. -/
def exC1Streams : StreamsDict := [("heartrate", .nums [100])]

/-- Fixture: one detected 400 m work segment template. -/
def exC4Seg (k : ℕ) : WorkSegment :=
  { segment_number := k, start_time_s := 0, duration_s := 200, distance_m := some 400,
    avg_speed_mps := some 4, avg_hr := none, peak_hr := none }

/-- Fixture: the summary of the detected eight-rep session. -/
def exC4Summary : IntervalSummary :=
  { total_work_time_s := some 1600, total_rest_time_s := some 480,
    work_to_rest_ratio := some 1, rep_count := some 8, avg_work_duration_s := some 200,
    work_duration_cv := none, avg_work_speed_mps := some 4, work_speed_cv := none,
    avg_rest_duration_s := some 60, avg_hr_recovery_bpm := none, consistency_score := none }

/-- Fixture: a detected eight-rep interval structure. -/
def exC4Istr : IntervalStructure :=
  { warmup_duration_s := some 300, cooldown_duration_s := none,
    work_segments :=
      [exC4Seg 1, exC4Seg 2, exC4Seg 3, exC4Seg 4, exC4Seg 5, exC4Seg 6, exC4Seg 7, exC4Seg 8],
    rest_segments := [], summary := exC4Summary }

/-- Fixture: a planned workout of eight 400 m reps with 60 s rests. -/
def exC4Planned : PlannedWorkout :=
  { reps_planned := some 8, rep_distance_m := some 400, rest_s := some 60 }

/-- Fixture: a profile with max HR 160 and no source tag. -/
def exC5Profile : UserProfile :=
  { max_hr := some 160, max_hr_source := none, goal_type := none,
    experience_level := none, weekly_days_available := none, current_weekly_km := none,
    injury_notes := none }

/-- Fixture: a time-in-zones record with ten Z4 and five Z5 seconds. -/
def exC5Zones : Zones := { z1 := 100, z2 := 200, z3 := 50, z4 := 10, z5 := 5 }

/-- Fixture: a cleanly bimodal list of active speeds. -/
def exC7Speeds : List ℚ := [2, 2, 2, 2, 2, 5, 5, 5, 5, 5]

/-- Fixture: a linked account whose token expires at unix second 1000. -/
def exC8Acct : StravaAccount :=
  { access_token := "tok_old", refresh_token := "ref_old", expires_at := 1000 }

/-- Fixture: a successful refresh-grant response body. -/
def exC8Data : TokenRefreshData :=
  { access_token := "tok_new", refresh_token := "ref_new", expires_at := 7200 }

/-- Fixture: an activity with heart-rate data present. -/
def exC10Act : Activity :=
  { name := some "Track", type := some "Run", user_intent := none, distance_m := 8000,
    moving_time_s := 2400, elapsed_time_s := 2500, elev_gain_m := 10,
    avg_hr := some 150, max_hr := some 185, avg_cadence := none, start_date_iso := "2026-01-05",
    raw_trainer := false, raw_sport_type := some "Run" }

/-- Fixture: a streams dict with GPS data. -/
def exC10Streams : StreamsDict := [("latlng", .pairs [(1, 2)])]

/-- Fixture: a minimal set of context-pack inputs. -/
def exC9Inputs : ContextInputs :=
  { activity := exC6Act, metrics := none, check_in := none, profile := none,
    facts_7d := [], facts_28d := [], facts_prev_28d := [], recent_7d := [] }

/-- C6 (counterexample): with `avg_hr` present but equal to 0 (and `max_hr`
present), the code takes the no-HR fallback branch and returns 10.0, while
the claim's HR formula at the same input evaluates to 0.0. -/
theorem C6_counterexample :
    calculate_effort_score exC6Act = 10 ∧
    pyRound 1 (((600 : ℚ) / 60) * ((0 : ℚ) / 190) ^ 3 * 10) = 0 ∧ (10 : ℚ) ≠ 0 :=
  ⟨by with_unfolding_all decide, by with_unfolding_all decide, by norm_num⟩

/-- C6 (amended): the effort score uses the HR formula exactly when both
`avg_hr` and `max_hr` are present and nonzero (Python truthiness), falls
back to minutes of moving time otherwise, and with an empty streams map all
five stream-dependent metrics are null while the effort score is still
computed. -/
theorem C6_amended :
    (∀ (a : Activity) (av mh : ℚ), a.avg_hr = some av → av ≠ 0 → a.max_hr = some mh → mh ≠ 0 →
      calculate_effort_score a = pyRound 1 (((a.moving_time_s : ℚ) / 60) * (av / mh) ^ 3 * 10))
    ∧ (∀ a : Activity, optQTruthy a.avg_hr = false ∨ optQTruthy a.max_hr = false →
      calculate_effort_score a = pyRound 1 ((a.moving_time_s : ℚ) / 60))
    ∧ (∀ (sqrtQ : ℚ → ℚ) (a : Activity) (max_hr : ℤ),
      compute_derived_metrics_data sqrtQ a [] max_hr =
        { effort_score := calculate_effort_score a, pace_variability := none, hr_drift := none,
          time_in_zones := none, stops_analysis := none, efficiency_analysis := none }) := by
  refine ⟨?_, ?_, ?_⟩
  · intro a av mh hav hav0 hmh hmh0
    simp [calculate_effort_score, optQTruthy, hav, hmh, hav0, hmh0]
  · intro a h
    rcases h with h | h <;> simp [calculate_effort_score, h]
  · intro sqrtQ a max_hr
    rfl

/-- C6 (witness): the amended theorem applied to the spec's easy-run
scenario (avg HR 150 of max 200 over 1500 s) and to the empty streams map. -/
theorem C6_witness :
    calculate_effort_score exC6WitAct =
      pyRound 1 (((1500 : ℚ) / 60) * ((150 : ℚ) / 200) ^ 3 * 10)
    ∧ compute_derived_metrics_data (fun _ => 0) exC6WitAct [] 190 =
      { effort_score := calculate_effort_score exC6WitAct, pace_variability := none,
        hr_drift := none, time_in_zones := none, stops_analysis := none,
        efficiency_analysis := none } :=
  ⟨C6_amended.1 exC6WitAct 150 200 rfl (by norm_num) rfl (by norm_num),
   C6_amended.2.2 (fun _ => 0) exC6WitAct 190⟩

/-- C3 (counterexample): with the type filter `["ride"]`, a fact whose
effective type is `Ride` (via user intent) but whose provider type is `Run`
is excluded, and with `["run"]` it is included although its effective type
lowercases to `ride` — the filter reads the provider type, not the
effective type. -/
theorem C3_counterexample :
    filterFactsByTypes ["ride"] [exC3Fact] = []
    ∧ strLower exC3Fact.effective_type = "ride"
    ∧ filterFactsByTypes ["run"] [exC3Fact] = [exC3Fact] :=
  ⟨by with_unfolding_all decide, by with_unfolding_all decide, by with_unfolding_all decide⟩

/-- C3 (amended): for a truthy (nonempty) types filter, a fact is kept if
and only if it was queried and its lowercased provider-reported type is a
member of the lowercased requested set; `user_intent` plays no part. -/
theorem C3_amended (types : List String) (facts : List ActivityFact) (f : ActivityFact)
    (htypes : types ≠ []) :
    f ∈ filterFactsByTypes types facts ↔
      f ∈ facts ∧ (types.map strLower).contains (strLower f.activity_type) = true := by
  match types, htypes with
  | t :: ts, _ =>
    simp only [filterFactsByTypes, List.mem_filter]

/-- C3 (witness): the amended theorem applied to the two concrete facts and
the filter `["ride"]`. -/
theorem C3_witness :
    (exC3Fact2 ∈ filterFactsByTypes ["ride"] [exC3Fact, exC3Fact2] ↔
      exC3Fact2 ∈ [exC3Fact, exC3Fact2] ∧
        ((["ride"].map strLower).contains (strLower exC3Fact2.activity_type) = true)) :=
  C3_amended ["ride"] [exC3Fact, exC3Fact2] exC3Fact2 (by simp)

/-- C5 (counterexample): with profile max HR 160 but no `max_hr_source`,
the orchestrator's gate still reports calibrated and `total_z4_plus_s` is
`Z4 + Z5 = 15`, not null as the claim requires for a missing source tag. -/
theorem C5_counterexample :
    (build_interval_kpis exC4Istr (some 160) (engineZonesCalibrated (some exC5Profile))
      (some exC5Zones)).total_z4_plus_s = some 15
    ∧ exC5Profile.max_hr_source = none ∧ exC5Profile.max_hr = some 160 :=
  ⟨by with_unfolding_all decide, rfl, rfl⟩

/-- C5 (amended): the orchestrator's `zones_calibrated` flag ignores
`max_hr_source` entirely (it is invariant under changing the source tag and
holds exactly when the profile's max HR is present, nonzero and above 100),
and `total_z4_plus_s` is `Z4 + Z5` exactly when that flag holds and a
time-in-zones record exists, else null. -/
theorem C5_amended :
    (∀ (p : UserProfile) (src : Option String),
      engineZonesCalibrated (some { p with max_hr_source := src }) =
        engineZonesCalibrated (some p))
    ∧ (∀ profile : Option UserProfile,
      engineZonesCalibrated profile = true ↔
        ∃ p m, profile = some p ∧ p.max_hr = some m ∧ m ≠ 0 ∧ 100 < m)
    ∧ (∀ (istr : IntervalStructure) (mh : Option ℤ) (profile : Option UserProfile)
        (tz : Option Zones) (s : ℕ),
      (build_interval_kpis istr mh (engineZonesCalibrated profile) tz).total_z4_plus_s = some s ↔
        (engineZonesCalibrated profile = true ∧ ∃ z, tz = some z ∧ s = z.z4 + z.z5)) := by
  refine ⟨?_, ?_, ?_⟩
  · intro p src
    rfl
  · intro profile
    rcases profile with _ | p
    · simp [engineZonesCalibrated]
    · rcases p with ⟨pm, psrc, pg, pe, pw, pc, pi⟩
      rcases pm with _ | m
      · simp [engineZonesCalibrated]
      · simp only [engineZonesCalibrated, Bool.and_eq_true, decide_eq_true_eq,
          Option.some.injEq]
        constructor
        · rintro ⟨h0, h1⟩
          exact ⟨_, m, rfl, rfl, h0, h1⟩
        · rintro ⟨q, m', hq, hm', h0, h1⟩
          cases hq
          cases hm'
          exact ⟨h0, h1⟩
  · intro istr mh profile tz s
    rcases hcal : engineZonesCalibrated profile with _ | _
    · simp [build_interval_kpis, hcal]
    · rcases tz with _ | z
      · simp [build_interval_kpis, hcal]
      · constructor
        · intro h
          have hz : z.z4 + z.z5 = s := by simpa [build_interval_kpis, hcal] using h
          exact ⟨rfl, z, rfl, hz.symm⟩
        · rintro ⟨-, z', hz, hs⟩
          cases hz
          simp [build_interval_kpis, hcal, hs]

/-- C5 (witness): the amended theorem applied to the source-tagged variant
of the fixture profile and to the concrete gate computation. -/
theorem C5_witness :
    engineZonesCalibrated (some { exC5Profile with max_hr_source := some "lab_test" }) =
      engineZonesCalibrated (some exC5Profile)
    ∧ ((build_interval_kpis exC4Istr (some 160) (engineZonesCalibrated (some exC5Profile))
        (some exC5Zones)).total_z4_plus_s = some 15 ↔
        (engineZonesCalibrated (some exC5Profile) = true ∧
          ∃ z, some exC5Zones = some z ∧ 15 = z.z4 + z.z5)) :=
  ⟨C5_amended.1 exC5Profile (some "lab_test"),
   C5_amended.2.2 exC4Istr (some 160) (some exC5Profile) (some exC5Zones) 15⟩

/-- C8 (confirmed): a token that is still fresh past the 60 second buffer
is returned with the account row untouched; otherwise a successful refresh
overwrites the three token fields and returns the new access token, and a
failed refresh propagates the error with the account row unmodified. -/
theorem C8_theorem {ε : Type} (now : ℚ) (acct : StravaAccount)
    (resp : Except ε TokenRefreshData) :
    (now + 60 < acct.expires_at →
      ensure_valid_token now acct resp = (Except.ok acct.access_token, acct))
    ∧ (¬ now + 60 < acct.expires_at →
      (∀ d, resp = .ok d →
        ensure_valid_token now acct resp =
          (Except.ok d.access_token,
           { access_token := d.access_token, refresh_token := d.refresh_token,
             expires_at := d.expires_at }))
      ∧ (∀ e, resp = .error e →
        ensure_valid_token now acct resp = (Except.error e, acct))) := by
  constructor
  · intro h
    simp [ensure_valid_token, h]
  · intro h
    constructor
    · intro d hd
      simp [ensure_valid_token, h, hd]
    · intro e he
      simp [ensure_valid_token, h, he]

/-- C8 (witness): the three branches of the contract at concrete times and
responses (expiry 1000: fresh at now = 100, stale at now = 950). -/
theorem C8_witness :
    ensure_valid_token (ε := String) 100 exC8Acct (.ok exC8Data) =
      (Except.ok "tok_old", exC8Acct)
    ∧ ensure_valid_token (ε := String) 950 exC8Acct (.ok exC8Data) =
      (Except.ok "tok_new",
       { access_token := "tok_new", refresh_token := "ref_new", expires_at := 7200 })
    ∧ ensure_valid_token (ε := String) 950 exC8Acct (.error "refresh_failed") =
      (Except.error "refresh_failed", exC8Acct) :=
  ⟨(C8_theorem 100 exC8Acct (.ok exC8Data)).1 (by norm_num [exC8Acct]),
   ((C8_theorem 950 exC8Acct (.ok exC8Data)).2 (by norm_num [exC8Acct])).1 exC8Data rfl,
   ((C8_theorem 950 exC8Acct (.error "refresh_failed")).2 (by norm_num [exC8Acct])).2
     "refresh_failed" rfl⟩

/-- C2 (counterexample): a nameless activity with sport type `Walk` is
classified `Easy Run` by the missing-name early return, not `Leisure Walk`
as the claim's sport fallback requires. -/
theorem C2_counterexample :
    classify_activity exC2Act [] = "Easy Run"
    ∧ ("Easy Run" : String) ≠ "Leisure Walk"
    ∧ exC2Act.name = none
    ∧ orElseStr exC2Act.raw_sport_type (orElseStr exC2Act.type "Run") = "Walk" :=
  ⟨by with_unfolding_all decide, by decide, rfl, by with_unfolding_all decide⟩

/-- C2 (amended): under no user intent, no trainer flag and no
zero-distance-ride match, a missing (or empty) name classifies as
`Easy Run` immediately; the sport fallbacks are reached only when a name is
present, matches no keyword, and the long-run and elevation rules do not
fire. -/
theorem C2_amended (a : Activity) (history : List Activity)
    (hintent : optStrTruthy a.user_intent = false)
    (htrainer : a.raw_trainer = false)
    (hnotzero : ¬(orElseStr a.raw_sport_type (orElseStr a.type "Run") = "Ride" ∧
      a.distance_m = 0 ∧ 60 < a.moving_time_s)) :
    (optStrTruthy a.name = false → classify_activity a history = "Easy Run")
    ∧ (optStrTruthy a.name = true →
      strContains (strLower (a.name.getD "")) "race" = false →
      strContains (strLower (a.name.getD "")) "workout" = false →
      strContains (strLower (a.name.getD "")) "interval" = false →
      strContains (strLower (a.name.getD "")) "hill" = false →
      strContains (strLower (a.name.getD "")) "recovery" = false →
      (a.moving_time_s : ℚ) ≤ max 4500 (avgRecentDuration history * (13/10)) →
      (0 < a.distance_m → gainPerKm a ≤ 20) →
      (0 < a.distance_m → 15 < gainPerKm a →
        ¬(optQTruthy a.avg_hr = true ∧ 150 < a.avg_hr.getD 0)) →
      classify_activity a history =
        sportFallbackClass (orElseStr a.raw_sport_type (orElseStr a.type "Run"))) := by
  constructor
  · intro hname
    simp [classify_activity, hintent, htrainer, hnotzero, hname]
  · intro hname hk1 hk2 hk3 hk4 hk5 hlong hg20 hg15
    by_cases hd : 0 < a.distance_m
    · have hh1 : ¬ 20 < gainPerKm a := not_lt.mpr (hg20 hd)
      have hh2 : ¬(15 < gainPerKm a ∧ (optQTruthy a.avg_hr = true ∧ 150 < a.avg_hr.getD 0)) :=
        fun hc => hg15 hd hc.1 hc.2
      simp [classify_activity, hintent, htrainer, hnotzero, hname, hk1, hk2, hk3, hk4, hk5,
        not_lt.mpr hlong, hd, hh1, hh2]
    · simp [classify_activity, hintent, htrainer, hnotzero, hname, hk1, hk2, hk3, hk4, hk5,
        not_lt.mpr hlong, hd]

/-- C2 (witness): the amended theorem applied to the nameless walk and to a
keyword-free named walk (which lands on the `Leisure Walk` fallback). -/
theorem C2_witness :
    classify_activity exC2Act [] = "Easy Run"
    ∧ classify_activity exC2WitAct [] =
      sportFallbackClass (orElseStr exC2WitAct.raw_sport_type (orElseStr exC2WitAct.type "Run")) :=
  ⟨(C2_amended exC2Act [] (by decide) rfl (by with_unfolding_all decide)).1 (by decide),
   (C2_amended exC2WitAct [] (by decide) rfl (by with_unfolding_all decide)).2
     (by with_unfolding_all decide) (by with_unfolding_all decide)
     (by with_unfolding_all decide) (by with_unfolding_all decide)
     (by with_unfolding_all decide) (by with_unfolding_all decide)
     (by with_unfolding_all decide) (by with_unfolding_all decide)
     (by with_unfolding_all decide)⟩

/-- C1 (counterexample): with profile max HR 120 (inside (100, 150]), the
orchestrator passes 120 onward but the Metrics Engine substitutes the
default 190 for zone bucketing: an HR sample of 100 lands in Z1 of the
190-based zones, whereas bucketing against 120 as the claim requires would
put it in Z4. -/
theorem C1_counterexample :
    engineEffectiveMaxHr (some exC1Profile) = 120
    ∧ (compute_derived_metrics_data (fun _ => 0) exC6Act exC1Streams
        (engineEffectiveMaxHr (some exC1Profile))).time_in_zones =
      some { z1 := 1, z2 := 0, z3 := 0, z4 := 0, z5 := 0 }
    ∧ calculate_time_in_zones exC1Streams 120 =
      some { z1 := 0, z2 := 0, z3 := 0, z4 := 1, z5 := 0 }
    ∧ (some { z1 := 1, z2 := 0, z3 := 0, z4 := 0, z5 := 0 } : Option Zones) ≠
      some { z1 := 0, z2 := 0, z3 := 0, z4 := 1, z5 := 0 } :=
  ⟨by with_unfolding_all decide, by with_unfolding_all decide,
   by with_unfolding_all decide, by decide⟩

/-- C1 (amended): through the orchestrator-plus-engine pipeline, time in
zones is bucketed against the profile max HR exactly when it exceeds 150;
for any profile max HR of 150 or below (including the whole band
(100, 150]) and for missing values the default 190 is substituted. -/
theorem C1_amended (sqrtQ : ℚ → ℚ) (a : Activity) (s0 : String × StreamData)
    (rest : StreamsDict) (p : UserProfile) (m : ℤ) (hm : p.max_hr = some m) :
    (compute_derived_metrics_data sqrtQ a (s0 :: rest)
      (engineEffectiveMaxHr (some p))).time_in_zones =
    calculate_time_in_zones (s0 :: rest) (((if 150 < m then m else 190) : ℤ) : ℚ) := by
  have heff : (if engineEffectiveMaxHr (some p) ≠ 0 ∧ 150 < engineEffectiveMaxHr (some p)
      then engineEffectiveMaxHr (some p) else 190) = ((if 150 < m then m else 190) : ℤ) := by
    simp only [engineEffectiveMaxHr, hm]
    by_cases h1 : m ≠ 0 ∧ 100 < m
    · rw [if_pos h1]
      by_cases h2 : 150 < m
      · rw [if_pos h2, if_pos ⟨h1.1, h2⟩]
      · rw [if_neg h2, if_neg (fun hc => h2 hc.2)]
    · rw [if_neg h1]
      have h2 : ¬ 150 < m := fun hc => h1 ⟨by omega, by omega⟩
      rw [if_neg h2]
      norm_num
  simp only [compute_derived_metrics_data]
  rw [heff]

/-- C1 (witness): the amended theorem at profile max HR 160 (above 150, so
the profile value is used). -/
theorem C1_witness :
    (compute_derived_metrics_data (fun _ => 0) exC6Act
      (("heartrate", StreamData.nums [100]) :: [])
      (engineEffectiveMaxHr (some exC5Profile))).time_in_zones =
    calculate_time_in_zones (("heartrate", StreamData.nums [100]) :: [])
      (((if 150 < (160 : ℤ) then (160 : ℤ) else 190) : ℤ) : ℚ) :=
  C1_amended (fun _ => 0) exC6Act ("heartrate", StreamData.nums [100]) [] exC5Profile 160 rfl

/-- The refinement loop executes at most as many iterations as it has fuel. -/
theorem refineSteps_le (speeds : List ℚ) : ∀ (n : ℕ) (t : ℚ), refineSteps speeds n t ≤ n := by
  intro n
  induction n with
  | zero => intro t; simp [refineSteps]
  | succ k ih =>
    intro t
    rw [refineSteps]
    dsimp only
    split
    · omega
    · split
      · omega
      · have := ih ((mean (speeds.filter (fun s => decide (s ≤ t))) +
          mean (speeds.filter (fun s => decide (t < s)))) / 2)
        omega

/-- C7 (confirmed): the bimodal-threshold search runs its refinement loop at
most 20 times, stops as soon as the threshold moves by less than 0.01, and
returns a threshold only when both clusters are nonempty and the high
cluster mean is at least 1.3 times the low cluster mean. -/
theorem C7_theorem :
    (∀ (speeds : List ℚ) (t : ℚ), refineSteps speeds 20 t ≤ 20)
    ∧ (∀ (speeds : List ℚ) (n : ℕ) (t : ℚ),
      speeds.filter (fun s => decide (s ≤ t)) ≠ [] →
      speeds.filter (fun s => decide (t < s)) ≠ [] →
      |(mean (speeds.filter (fun s => decide (s ≤ t))) +
        mean (speeds.filter (fun s => decide (t < s)))) / 2 - t| < 1/100 →
      refineThreshold speeds (n + 1) t = some t)
    ∧ (∀ (speeds : List ℚ) (t : ℚ), bimodal_threshold speeds = some t →
      speeds.filter (fun s => decide (s ≤ t)) ≠ [] ∧
      speeds.filter (fun s => decide (t < s)) ≠ [] ∧
      mean (speeds.filter (fun s => decide (s ≤ t))) * (13/10) ≤
        mean (speeds.filter (fun s => decide (t < s)))) := by
  refine ⟨fun speeds t => refineSteps_le speeds 20 t, ?_, ?_⟩
  · intro speeds n t hlow hhigh hclose
    have hne : ¬(speeds.filter (fun s => decide (s ≤ t)) = [] ∨
        speeds.filter (fun s => decide (t < s)) = []) := by
      rintro (h | h)
      · exact hlow h
      · exact hhigh h
    rw [refineThreshold]
    rw [if_neg hne, if_pos hclose]
  · intro speeds t h
    unfold bimodal_threshold at h
    by_cases hlen : speeds.length < 10
    · rw [if_pos hlen] at h
      exact absurd h (by simp)
    · rw [if_neg hlen] at h
      rcases hr : refineThreshold speeds 20 (mean speeds) with _ | t'
      · rw [hr] at h
        exact absurd h (by simp)
      · rw [hr] at h
        dsimp only at h
        by_cases hne : speeds.filter (fun s => decide (s ≤ t')) = [] ∨
            speeds.filter (fun s => decide (t' < s)) = []
        · rw [if_pos hne] at h
          exact absurd h (by simp)
        · rw [if_neg hne] at h
          by_cases hsep : mean (speeds.filter (fun s => decide (t' < s))) <
              mean (speeds.filter (fun s => decide (s ≤ t'))) * (13/10)
          · rw [if_pos hsep] at h
            exact absurd h (by simp)
          · rw [if_neg hsep] at h
            have ht : t' = t := by simpa using h
            subst ht
            exact ⟨fun hc => hne (Or.inl hc), fun hc => hne (Or.inr hc), not_lt.mp hsep⟩

/-- C7 (witness): the theorem applied to a cleanly bimodal ten-sample list
(five at 2 m/s, five at 5 m/s), on which the search converges immediately
to 3.5 and passes the separation check. -/
theorem C7_witness :
    refineSteps exC7Speeds 20 (mean exC7Speeds) ≤ 20
    ∧ (exC7Speeds.filter (fun s => decide (s ≤ 7/2)) ≠ [] ∧
       exC7Speeds.filter (fun s => decide ((7/2 : ℚ) < s)) ≠ [] ∧
       mean (exC7Speeds.filter (fun s => decide (s ≤ 7/2))) * (13/10) ≤
         mean (exC7Speeds.filter (fun s => decide ((7/2 : ℚ) < s)))) :=
  ⟨C7_theorem.1 exC7Speeds (mean exC7Speeds),
   C7_theorem.2.2 exC7Speeds (7/2) (by with_unfolding_all decide)⟩

/-- Membership in the filter by equality with a fixed string, together with
distinctness, bounds the filtered length by one. -/
theorem filter_contains_singleton_le_one (l : List String) (x : String) (hn : l.Nodup) :
    (l.filter (fun c => [x].contains c)).length ≤ 1 := by
  induction l with
  | nil => simp
  | cons a tl ih =>
    rw [List.filter_cons]
    by_cases hax : ([x].contains a) = true
    · have hax' : a = x := by simpa [List.contains] using hax
      rw [if_pos hax]
      have htl : tl.filter (fun c => [x].contains c) = [] := by
        rw [List.filter_eq_nil_iff]
        intro c hc hcontains
        have hcx : c = x := by simpa [List.contains] using hcontains
        exact (List.nodup_cons.mp hn).1 (by rw [hax', ← hcx]; exact hc)
      rw [htl]
      simp
    · rw [if_neg hax]
      exact ih (List.nodup_cons.mp hn).2

/-- A single accumulated reason can intersect the five distinct critical
codes at most once. -/
theorem criticalHits_singleton_le_one (x : String) : criticalHits [x] ≤ 1 :=
  filter_contains_singleton_le_one criticalConfidenceCodes x (by decide)

/-- The confidence level is `high` exactly on an empty reasons list. -/
theorem confidenceLevel_high_iff (rs : List String) :
    confidenceLevel rs = "high" ↔ rs = [] := by
  constructor
  · intro h
    by_contra hne
    unfold confidenceLevel at h
    by_cases h2 : 2 ≤ criticalHits rs
    · rw [if_pos h2] at h
      exact absurd h (by decide)
    · rw [if_neg h2] at h
      by_cases h1 : 1 ≤ criticalHits rs ∨ 3 ≤ rs.length
      · rw [if_pos h1] at h
        exact absurd h (by decide)
      · rw [if_neg h1] at h
        by_cases h0 : rs.length = 0
        · exact hne (List.length_eq_zero.mp h0)
        · rw [if_neg h0, if_pos hne] at h
          exact absurd h (by decide)
  · rintro rfl
    decide

/-- A reasons list of length one always yields level `medium`. -/
theorem confidenceLevel_single (rs : List String) (h : rs.length = 1) :
    confidenceLevel rs = "medium" := by
  match rs, h with
  | [x], _ =>
    have hle : criticalHits [x] ≤ 1 := criticalHits_singleton_le_one x
    unfold confidenceLevel
    rw [if_neg (by omega)]
    by_cases h1 : 1 ≤ criticalHits [x] ∨ 3 ≤ ([x] : List String).length
    · rw [if_pos h1]
    · rw [if_neg h1, if_neg (by simp), if_pos (by simp)]

/-- Two or more critical hits always yield level `low`. -/
theorem confidenceLevel_low (rs : List String) (h : 2 ≤ criticalHits rs) :
    confidenceLevel rs = "low" := by
  unfold confidenceLevel
  rw [if_pos h]

/-- C10 (confirmed): the computed confidence level is `high` if and only if
the accumulated reasons list is empty, any single reason (critical or not)
yields `medium`, and two or more critical reasons yield `low`. -/
theorem C10_theorem (a : Activity) (sd : StreamsDict) (ci : Option CheckIn)
    (istr : Option IntervalStructure) (wm : Option MatchResult) :
    ((compute_confidence a sd ci istr wm).1 = "high" ↔
      (compute_confidence a sd ci istr wm).2 = [])
    ∧ ((compute_confidence a sd ci istr wm).2.length = 1 →
      (compute_confidence a sd ci istr wm).1 = "medium")
    ∧ (2 ≤ criticalHits ((compute_confidence a sd ci istr wm).2) →
      (compute_confidence a sd ci istr wm).1 = "low") := by
  refine ⟨?_, ?_, ?_⟩
  · exact confidenceLevel_high_iff (confidenceReasons a sd ci istr wm)
  · exact confidenceLevel_single (confidenceReasons a sd ci istr wm)
  · exact confidenceLevel_low (confidenceReasons a sd ci istr wm)

/-- C10 (witness): with heart rate, streams and GPS present but no check-in,
the single reason `no_user_checkin` (a non-critical one) yields `medium`. -/
theorem C10_witness :
    (compute_confidence exC10Act exC10Streams none none none).1 = "medium" :=
  (C10_theorem exC10Act exC10Streams none none none).2.1 (by with_unfolding_all decide)

/-- Sorting by key is invariant under permutation of a duplicate-free-keyed
association list: both sorts are permutations of each other and strictly
sorted by key, hence equal. -/
theorem sortPairsByKey_eq_of_perm {α : Type} (l1 l2 : List (String × α))
    (hp : l1.Perm l2) (hn : (l1.map Prod.fst).Nodup) :
    sortPairsByKey l1 = sortPairsByKey l2 := by
  have hs1 : (sortPairsByKey l1).Sorted keyLe := List.sorted_insertionSort keyLe l1
  have hs2 : (sortPairsByKey l2).Sorted keyLe := List.sorted_insertionSort keyLe l2
  have hp1 : (sortPairsByKey l1).Perm l1 := List.perm_insertionSort keyLe l1
  have hp2 : (sortPairsByKey l2).Perm l2 := List.perm_insertionSort keyLe l2
  have hps : (sortPairsByKey l1).Perm (sortPairsByKey l2) := hp1.trans (hp.trans hp2.symm)
  have hn1 : ((sortPairsByKey l1).map Prod.fst).Nodup := ((hp1.map Prod.fst).nodup_iff).mpr hn
  have hnl2 : (l2.map Prod.fst).Nodup := ((hp.map Prod.fst).nodup_iff).mp hn
  have hn2 : ((sortPairsByKey l2).map Prod.fst).Nodup := ((hp2.map Prod.fst).nodup_iff).mpr hnl2
  have hstrict : ∀ (s : List (String × α)), s.Sorted keyLe → (s.map Prod.fst).Nodup →
      s.Sorted (fun a b => a.1 < b.1) := by
    intro s hs hnd
    have hnd' : s.Pairwise (fun a b => a.1 ≠ b.1) := (List.pairwise_map).mp hnd
    exact (hs.and hnd').imp (fun h => lt_of_le_of_ne h.1 h.2)
  haveI : IsAntisymm (String × α) (fun a b => a.1 < b.1) :=
    ⟨fun a b h1 h2 => absurd (lt_trans h1 h2) (lt_irrefl _)⟩
  exact List.eq_of_perm_of_sorted hps (hstrict _ hs1 hn1) (hstrict _ hs2 hn2)

/-- The canonical serialization of an object does not depend on the
insertion order of its keys (given the keys are distinct, as they are in a
Python dict). -/
theorem serializeJson_obj_perm (l1 l2 : List (String × Json)) (hp : l1.Perm l2)
    (hn : (l1.map Prod.fst).Nodup) :
    serializeJson (Json.obj l1) = serializeJson (Json.obj l2) := by
  have hmap : ∀ l : List (String × Json),
      serializePairs l = l.map (fun kv => (kv.1, serializeJson kv.2)) := by
    intro l
    induction l with
    | nil => rfl
    | cons hd tl ih =>
      cases hd
      simp [serializePairs, ih]
  have hperm : (serializePairs l1).Perm (serializePairs l2) := by
    rw [hmap, hmap]
    exact hp.map _
  have hkeys : ((serializePairs l1).map Prod.fst).Nodup := by
    rw [hmap, List.map_map]
    have hfst : (Prod.fst ∘ fun kv : String × Json => (kv.1, serializeJson kv.2)) = Prod.fst :=
      rfl
    rw [hfst]
    exact hn
  simp only [serializeJson]
  rw [sortPairsByKey_eq_of_perm _ _ hperm hkeys]

/-- C9 (confirmed): Context Pack hashing is deterministic — the builder is
a pure function of its database inputs, so identical inputs give identical
documents and digests, and the sorted-keys canonical serialization (hence
the digest) is invariant under the insertion order of object keys. -/
theorem C9_theorem (sha256 : String → String) :
    (∀ i1 i2 : ContextInputs, i1 = i2 →
      hash_context_pack sha256 (build_context_pack i1) =
        hash_context_pack sha256 (build_context_pack i2))
    ∧ (∀ l1 l2 : List (String × Json), l1.Perm l2 → (l1.map Prod.fst).Nodup →
      hash_context_pack sha256 (Json.obj l1) = hash_context_pack sha256 (Json.obj l2)) := by
  constructor
  · intro i1 i2 h
    rw [h]
  · intro l1 l2 hp hn
    unfold hash_context_pack
    rw [serializeJson_obj_perm l1 l2 hp hn]

/-- C9 (witness): the theorem applied to the fixture inputs and to a
two-key object given in both insertion orders. -/
theorem C9_witness :
    hash_context_pack (fun s => s) (build_context_pack exC9Inputs) =
      hash_context_pack (fun s => s) (build_context_pack exC9Inputs)
    ∧ hash_context_pack (fun s => s) (Json.obj [("b", Json.null), ("a", Json.num 1)]) =
      hash_context_pack (fun s => s) (Json.obj [("a", Json.num 1), ("b", Json.null)]) :=
  ⟨(C9_theorem (fun s => s)).1 exC9Inputs exC9Inputs rfl,
   (C9_theorem (fun s => s)).2 [("b", Json.null), ("a", Json.num 1)]
     [("a", Json.num 1), ("b", Json.null)]
     (List.Perm.swap ("a", Json.num 1) ("b", Json.null) []) (by decide)⟩

/-- The Batteries rational floor agrees with the Mathlib floor. -/
theorem ratFloor_eq_intFloor (x : ℚ) : x.floor = ⌊x⌋ := by
  rw [Rat.floor_def', Rat.floor_def]

/-- Banker's rounding of a value in `[0, n]` stays in `[0, n]`. -/
theorem pyRoundInt_bounds (x : ℚ) (n : ℕ) (hx0 : 0 ≤ x) (hxn : x ≤ (n : ℚ)) :
    0 ≤ pyRoundInt x ∧ pyRoundInt x ≤ (n : ℤ) := by
  have hfq : ((⌊x⌋ : ℤ) : ℚ) ≤ x := Int.floor_le x
  have hf0 : 0 ≤ ⌊x⌋ := Int.floor_nonneg.mpr hx0
  have hfn : ⌊x⌋ ≤ (n : ℤ) := by exact_mod_cast le_trans hfq hxn
  simp only [pyRoundInt, ratFloor_eq_intFloor]
  split
  · exact ⟨hf0, hfn⟩
  · rename_i h1
    split
    · rename_i h2
      have hlt : ((⌊x⌋ : ℤ) : ℚ) < ((n : ℤ) : ℚ) := by push_cast; linarith
      have hfn' : ⌊x⌋ < (n : ℤ) := by exact_mod_cast hlt
      omega
    · rename_i h2
      have heq : x - ((⌊x⌋ : ℤ) : ℚ) = 1/2 := le_antisymm (not_lt.mp h2) (not_lt.mp h1)
      have hlt : ((⌊x⌋ : ℤ) : ℚ) < ((n : ℤ) : ℚ) := by push_cast; push_cast at hxn heq; linarith
      have hfn' : ⌊x⌋ < (n : ℤ) := by exact_mod_cast hlt
      split
      · exact ⟨hf0, hfn⟩
      · omega

/-- Rounding to two decimals keeps the unit interval. -/
theorem pyRound_unit (x : ℚ) (h0 : 0 ≤ x) (h1 : x ≤ 1) :
    0 ≤ pyRound 2 x ∧ pyRound 2 x ≤ 1 := by
  have h := pyRoundInt_bounds (x * 10 ^ 2) 100 (by positivity) (by push_cast; nlinarith)
  unfold pyRound
  constructor
  · apply div_nonneg _ (by norm_num)
    exact_mod_cast h.1
  · rw [div_le_one (by norm_num)]
    have h2 : ((pyRoundInt (x * 10 ^ 2) : ℤ) : ℚ) ≤ ((100 : ℤ) : ℚ) := by exact_mod_cast h.2
    push_cast at h2 ⊢
    linarith

/-- A min-over-max ratio of two positive quantities lies in `[0, 1]`. -/
theorem ratio_unit {a b : ℚ} (ha : 0 < a) (hb : 0 < b) :
    0 ≤ min a b / max a b ∧ min a b / max a b ≤ 1 := by
  have hmin : 0 < min a b := lt_min ha hb
  have hmax : 0 < max a b := lt_of_lt_of_le hmin min_le_max
  exact ⟨div_nonneg hmin.le hmax.le, (div_le_one hmax).mpr min_le_max⟩

/-- A fold-sum of nonnegative rationals is nonnegative. -/
theorem listSum_nonneg (l : List ℚ) (h : ∀ x ∈ l, 0 ≤ x) : 0 ≤ listSum l := by
  induction l with
  | nil => simp [listSum]
  | cons a tl ih =>
    have ha := h a (List.mem_cons_self a tl)
    have htl := ih (fun x hx => h x (List.mem_cons_of_mem a hx))
    simp only [listSum, List.foldr_cons] at *
    linarith

/-- A fold-sum of values bounded by one is bounded by the length. -/
theorem listSum_le_length (l : List ℚ) (h : ∀ x ∈ l, x ≤ 1) : listSum l ≤ (l.length : ℚ) := by
  induction l with
  | nil => simp [listSum]
  | cons a tl ih =>
    have ha := h a (List.mem_cons_self a tl)
    have htl := ih (fun x hx => h x (List.mem_cons_of_mem a hx))
    simp only [listSum, List.foldr_cons, List.length_cons] at *
    push_cast
    linarith

/-- The mean of a nonempty list of unit-interval values is in `[0, 1]`. -/
theorem mean_unit (l : List ℚ) (h : ∀ x ∈ l, 0 ≤ x ∧ x ≤ 1) (hne : l ≠ []) :
    0 ≤ mean l ∧ mean l ≤ 1 := by
  have hlen : 0 < (l.length : ℚ) := by
    have : 0 < l.length := List.length_pos.mpr hne
    exact_mod_cast this
  unfold mean
  constructor
  · exact div_nonneg (listSum_nonneg l (fun x hx => (h x hx).1)) hlen.le
  · rw [div_le_one hlen]
    exact listSum_le_length l (fun x hx => (h x hx).2)

/-- C4 (amended): with a planned workout whose rep count, rep distance and
rest are present and positive and whose detected counterparts are
available and positive, `match_score` is the two-decimal rounding of the
mean of the rep-count, rep-distance and rest-duration min-over-max ratios
together with the expected-work-time ratio (expected work = reps x
distance / 4.0 m/s) — the latter joining the mean only when it is below
0.4 — and the resulting score lies in `[0, 1]`. -/
theorem C4_amended (sqrtQ : ℚ → ℚ) (istr : IntervalStructure) (pw : PlannedWorkout)
    (w0 : WorkSegment) (ws : List WorkSegment) (rp : ℕ) (dp rs ar tw : ℚ)
    (hws : istr.work_segments = w0 :: ws)
    (hrp : pw.reps_planned = some rp) (hrp0 : 0 < rp)
    (hdp : pw.rep_distance_m = some dp) (hdp0 : 0 < dp)
    (hrs : pw.rest_s = some rs) (hrs0 : 0 < rs)
    (har : istr.summary.avg_rest_duration_s = some ar) (har0 : 0 < ar)
    (htw : istr.summary.total_work_time_s = some tw) (htw0 : 0 < tw)
    (hrd0 : 0 < istr.summary.rep_count.getD (w0 :: ws).length)
    (hdists : workSegmentDistances (w0 :: ws) ≠ [])
    (hdd0 : 0 < pyRound 1 (mean (workSegmentDistances (w0 :: ws)))) :
    ∃ s, (match_planned_to_detected sqrtQ (some istr) (some pw)).match_score = some s
      ∧ s = pyRound 2 (mean
          ([((min rp (istr.summary.rep_count.getD (w0 :: ws).length) : ℕ) : ℚ) /
              ((max rp (istr.summary.rep_count.getD (w0 :: ws).length) : ℕ) : ℚ),
            min dp (pyRound 1 (mean (workSegmentDistances (w0 :: ws)))) /
              max dp (pyRound 1 (mean (workSegmentDistances (w0 :: ws)))),
            min rs ar / max rs ar] ++
          (if min ((rp : ℚ) * (dp / 4)) tw / max ((rp : ℚ) * (dp / 4)) tw < 2/5 then
            [min ((rp : ℚ) * (dp / 4)) tw / max ((rp : ℚ) * (dp / 4)) tw]
          else [])))
      ∧ 0 ≤ s ∧ s ≤ 1 := by
  have hrpne : rp ≠ 0 := Nat.pos_iff_ne_zero.mp hrp0
  have hrdne : istr.summary.rep_count.getD (w0 :: ws).length ≠ 0 :=
    Nat.pos_iff_ne_zero.mp hrd0
  have hdpne : dp ≠ 0 := ne_of_gt hdp0
  have hddne : pyRound 1 (mean (workSegmentDistances (w0 :: ws))) ≠ 0 := ne_of_gt hdd0
  have hrsne : rs ≠ 0 := ne_of_gt hrs0
  have harne : ar ≠ 0 := ne_of_gt har0
  have htwne : tw ≠ 0 := ne_of_gt htw0
  refine ⟨pyRound 2 (mean
          ([((min rp (istr.summary.rep_count.getD (w0 :: ws).length) : ℕ) : ℚ) /
              ((max rp (istr.summary.rep_count.getD (w0 :: ws).length) : ℕ) : ℚ),
            min dp (pyRound 1 (mean (workSegmentDistances (w0 :: ws)))) /
              max dp (pyRound 1 (mean (workSegmentDistances (w0 :: ws)))),
            min rs ar / max rs ar] ++
          (if min ((rp : ℚ) * (dp / 4)) tw / max ((rp : ℚ) * (dp / 4)) tw < 2/5 then
            [min ((rp : ℚ) * (dp / 4)) tw / max ((rp : ℚ) * (dp / 4)) tw]
          else []))), ?_, rfl, ?_⟩
  · simp only [match_planned_to_detected, hws, hrp, hdp, hrs, har, htw, ne_eq, hrpne,
      hrdne, hdpne, hddne, hrsne, harne, htwne, hdists, not_false_eq_true, and_self,
      if_true, apply_ite (f := Prod.fst (α := List ℚ) (β := List String)),
      List.cons_append, List.nil_append, List.singleton_append]
    simp
  · have hr1 : 0 ≤ ((min rp (istr.summary.rep_count.getD (w0 :: ws).length) : ℕ) : ℚ) /
        ((max rp (istr.summary.rep_count.getD (w0 :: ws).length) : ℕ) : ℚ) ∧
        ((min rp (istr.summary.rep_count.getD (w0 :: ws).length) : ℕ) : ℚ) /
        ((max rp (istr.summary.rep_count.getD (w0 :: ws).length) : ℕ) : ℚ) ≤ 1 := by
      rw [Nat.cast_min, Nat.cast_max]
      exact ratio_unit (by exact_mod_cast hrp0) (by exact_mod_cast hrd0)
    have hr2 := ratio_unit hdp0 hdd0
    have hr3 := ratio_unit hrs0 har0
    have hew : 0 < (rp : ℚ) * (dp / 4) := by
      have : (0 : ℚ) < rp := by exact_mod_cast hrp0
      positivity
    have hr4 := ratio_unit hew htw0
    have hmem : ∀ x ∈ ([((min rp (istr.summary.rep_count.getD (w0 :: ws).length) : ℕ) : ℚ) /
              ((max rp (istr.summary.rep_count.getD (w0 :: ws).length) : ℕ) : ℚ),
            min dp (pyRound 1 (mean (workSegmentDistances (w0 :: ws)))) /
              max dp (pyRound 1 (mean (workSegmentDistances (w0 :: ws)))),
            min rs ar / max rs ar] ++
          (if min ((rp : ℚ) * (dp / 4)) tw / max ((rp : ℚ) * (dp / 4)) tw < 2/5 then
            [min ((rp : ℚ) * (dp / 4)) tw / max ((rp : ℚ) * (dp / 4)) tw]
          else [])), 0 ≤ x ∧ x ≤ 1 := by
      intro x hx
      rcases List.mem_append.mp hx with hx | hx
      · simp only [List.mem_cons, List.mem_singleton, List.not_mem_nil, or_false] at hx
        rcases hx with rfl | rfl | rfl
        · exact hr1
        · exact hr2
        · exact hr3
      · by_cases h4 : min ((rp : ℚ) * (dp / 4)) tw / max ((rp : ℚ) * (dp / 4)) tw < 2/5
        · rw [if_pos h4] at hx
          simp only [List.mem_singleton] at hx
          subst hx
          exact hr4
        · rw [if_neg h4] at hx
          simp at hx
    have hne : ([((min rp (istr.summary.rep_count.getD (w0 :: ws).length) : ℕ) : ℚ) /
              ((max rp (istr.summary.rep_count.getD (w0 :: ws).length) : ℕ) : ℚ),
            min dp (pyRound 1 (mean (workSegmentDistances (w0 :: ws)))) /
              max dp (pyRound 1 (mean (workSegmentDistances (w0 :: ws)))),
            min rs ar / max rs ar] ++
          (if min ((rp : ℚ) * (dp / 4)) tw / max ((rp : ℚ) * (dp / 4)) tw < 2/5 then
            [min ((rp : ℚ) * (dp / 4)) tw / max ((rp : ℚ) * (dp / 4)) tw]
          else [])) ≠ [] := by
      simp
    have hm := mean_unit _ hmem hne
    exact pyRound_unit _ hm.1 hm.2

/-- C4 (counterexample): on an exactly-matching eight-rep session whose
total work time is twice the expected work time, the code's match_score is
1.0 (the work ratio 0.5 is not below 0.4 and is dropped), while the
claim's unconditional four-ratio mean would give 0.88. -/
theorem C4_counterexample :
    (match_planned_to_detected (fun _ => 0) (some exC4Istr) (some exC4Planned)).match_score
      = some 1
    ∧ pyRound 2 (mean [1, 1, 1, 1/2]) = 22/25
    ∧ (1 : ℚ) ≠ 22/25
    ∧ min ((8 : ℚ) * (400 / 4)) 1600 / max ((8 : ℚ) * (400 / 4)) 1600 = 1/2 :=
  ⟨by with_unfolding_all decide, by with_unfolding_all decide, by norm_num,
   by with_unfolding_all decide⟩

/-- C4 (witness): the amended theorem applied to the fixture session,
where the conditional work-ratio term is dropped and the score is 1.0. -/
theorem C4_witness :
    (match_planned_to_detected (fun _ => 0) (some exC4Istr) (some exC4Planned)).match_score
      = some 1 := by
  obtain ⟨s, hs, hval, -, -⟩ := C4_amended (fun _ => 0) exC4Istr exC4Planned (exC4Seg 1)
    [exC4Seg 2, exC4Seg 3, exC4Seg 4, exC4Seg 5, exC4Seg 6, exC4Seg 7, exC4Seg 8]
    8 400 60 60 1600 rfl rfl (by norm_num) rfl (by norm_num) rfl (by norm_num) rfl (by norm_num)
    rfl (by norm_num) (by with_unfolding_all decide) (by with_unfolding_all decide)
    (by with_unfolding_all decide)
  have hs1 : s = 1 := by
    rw [hval]
    with_unfolding_all decide
  rw [hs, hs1]
